import Mathlib

/-!
Shallow embedding of `tkloguru/__init__.py` (the `LoguruWidget` class and
`setup_logger`), together with the small parts of its environment whose
semantics the code relies on:

* the Tk `Text` widget: it is modelled as a list of lines, each line a list
  of tagged segments (`insert(END, text, tag)` appends a segment; each
  `update_widget` call ends its insertions with a newline, so each call adds
  exactly one line).  Tk's `index('end-1c')` reports the line number of the
  character just before the automatic trailing newline the widget always
  keeps; since every inserted line is newline-terminated, that character sits
  on an empty final display line, so the integer part equals
  `number_of_rendered_lines + 1` (and `1` for an empty widget).
  `delete('1.0','2.0')` removes the first rendered line.
  `tag_configure(level, fg, bg)` mutates a tag table consulted at display
  time for every piece of text carrying that tag.
* the `queue.Queue`: a FIFO list; `put` appends, `get_nowait` pops the head
  and the drain loop runs until the queue is empty.
* loguru's sink registry: `logger.remove()` clears all registrations,
  `logger.add(sink, ...)` appends one; on emission a record is delivered to
  each registration whose level threshold is at most the record's level
  number.  Level numbers follow loguru's standard table (TRACE 5, DEBUG 10,
  INFO 20, SUCCESS 25, WARNING 30, ERROR 40, CRITICAL 50), which is also the
  module's own `LEVEL_NO_TO_NAME` table.  Python exceptions (e.g. the
  `KeyError` of a failed dict lookup) are modelled with `Except`.
-/

namespace TkLoguru

/-- The `LEVELS` list of the module. -/
def LEVELS : List String :=
  ["TRACE", "DEBUG", "INFO", "SUCCESS", "WARNING", "ERROR", "CRITICAL"]

/-- The `LEVEL_NO_TO_NAME` dict of the module, as a finite map. -/
def LEVEL_NO_TO_NAME (n : Nat) : Option String :=
  if n = 5 then some "TRACE"
  else if n = 10 then some "DEBUG"
  else if n = 20 then some "INFO"
  else if n = 25 then some "SUCCESS"
  else if n = 30 then some "WARNING"
  else if n = 40 then some "ERROR"
  else if n = 50 then some "CRITICAL"
  else none

/-- loguru's level-name-to-number table (the direction used when a sink is
registered with `level=name`); unknown names map to 0 here, a case the
theorems exclude by hypothesis. -/
def levelNameToNo (name : String) : Nat :=
  if name = "TRACE" then 5
  else if name = "DEBUG" then 10
  else if name = "INFO" then 20
  else if name = "SUCCESS" then 25
  else if name = "WARNING" then 30
  else if name = "ERROR" then 40
  else if name = "CRITICAL" then 50
  else 0

/-- A color value as stored in `log_colors`: either a foreground string or a
(foreground, background) tuple. -/
inductive Color where
  | fg (c : String)
  | fgbg (f b : String)
deriving DecidableEq, Repr

/-- A normalized log record as placed on the widget's queue by `sink` (the
`time` field stands for the timestamp already rendered by `strftime`). -/
structure LogRecord where
  time : String
  level : String
  message : String
deriving DecidableEq, Repr

/-- One `text.insert` call's worth of text together with the tag it was
inserted under (`""` is Tk's untagged default). -/
structure Segment where
  text : String
  tag : String
deriving DecidableEq, Repr

/-- A rendered line of the `Text` widget: the segments inserted for it by one
`update_widget` call (the last segment's text ends in a newline). -/
abbrev Line := List Segment

/-- Python-dict association list update: replace the value at the first
matching key, or append the binding if the key is absent. -/
def dictSet : List (String × Color) → String → Color → List (String × Color)
  | [], k, v => [(k, v)]
  | p :: t, k, v => if p.1 = k then (k, v) :: t else p :: dictSet t k v

/-- Python-dict association list lookup. -/
def dictGet : List (String × Color) → String → Option Color
  | [], _ => none
  | p :: t, k => if p.1 = k then some p.2 else dictGet t k

/-- The state of a `LoguruWidget` (queue, configuration, and the `Text`
widget's content and tag table). -/
structure Widget where
  queue : List LogRecord
  show_scrollbar : Bool
  color_mode : String
  max_lines : Nat
  log_colors : List (String × Color)
  tagColors : List (String × Color)
  buffer : List Line
  layout : Option String
  destroyed : Bool
deriving DecidableEq, Repr

/-- The default `log_colors` dict set up in `__init__`. -/
def defaultLogColors : List (String × Color) :=
  [("TRACE", .fg "#999999"),
   ("DEBUG", .fg "#4a4a4a"),
   ("INFO", .fg "#3498db"),
   ("SUCCESS", .fg "#2ecc71"),
   ("WARNING", .fg "#f39c12"),
   ("ERROR", .fg "#e74c3c"),
   ("CRITICAL", .fgbg "#ffffff" "#c0392b")]

/-- `update_tag_colors`: `tag_configure` each level of `log_colors` into the
`Text` widget's tag table. -/
def update_tag_colors (w : Widget) : Widget :=
  { w with tagColors := w.log_colors.foldl (fun tc p => dictSet tc p.1 p.2) w.tagColors }

/-- `LoguruWidget.__init__` followed by `create_widgets` (the `Text` widget
starts empty and its tag table is filled by `update_tag_colors`). -/
def mkWidget (show_scrollbar : Bool) (color_mode : String) (max_lines : Nat) : Widget :=
  update_tag_colors
    { queue := []
      show_scrollbar := show_scrollbar
      color_mode := color_mode
      max_lines := max_lines
      log_colors := defaultLogColors
      tagColors := []
      buffer := []
      layout := none
      destroyed := false }

/-- Python's string padding `level` to a minimum width of 8, left justified. -/
def pad8 (s : String) : String :=
  s ++ String.mk (List.replicate (8 - s.length) ' ')

/-- The `insert` calls of `update_widget` for one record under a given
`color_mode`: the segments of the single line they produce. -/
def renderSegs (mode : String) (r : LogRecord) : Line :=
  if mode = "full" then
    [⟨r.time ++ " | " ++ pad8 r.level ++ " | " ++ r.message ++ "\n", r.level⟩]
  else if mode = "message" then
    [⟨r.time ++ " | " ++ pad8 r.level ++ " | ", ""⟩,
     ⟨r.message ++ "\n", r.level⟩]
  else
    [⟨r.time ++ " | ", ""⟩,
     ⟨pad8 r.level, r.level⟩,
     ⟨" | " ++ r.message ++ "\n", ""⟩]

/-- `update_widget`: append the rendered line, then read
`int(index('end-1c')...)` — which is the rendered line count plus one, the
extra one being Tk's empty final display line — and if it exceeds
`max_lines`, `delete('1.0','2.0')` the oldest line. -/
def update_widget (w : Widget) (r : LogRecord) : Widget :=
  let buf := w.buffer ++ [renderSegs w.color_mode r]
  { w with buffer := if buf.length + 1 > w.max_lines then buf.drop 1 else buf }

/-- The `get_nowait`/`update_widget` loop of `check_queue`, run on the
records the queue holds when the drain starts. -/
def drainLoop : List LogRecord → Widget → Widget
  | [], w => w
  | r :: rs, w => drainLoop rs (update_widget w r)

/-- `check_queue`: return immediately when destroyed; otherwise drain the
queue to empty, then reschedule (`after(100, check_queue)`) only if the
destroyed flag is still unset.  The boolean reports whether a reschedule was
issued. -/
def check_queue (w : Widget) : Widget × Bool :=
  if w.destroyed then (w, false)
  else
    let w1 := drainLoop w.queue { w with queue := [] }
    (w1, !w1.destroyed)

/-- loguru's level object, carrying the `.name` read by `sink`. -/
structure LoguruLevel where
  name : String
deriving DecidableEq, Repr

/-- The `message.record` dict seen by `sink`; each field is optional because
a dict lookup can fail (a missing key raises `KeyError`). -/
structure MessageRecord where
  time : Option String
  level : Option LoguruLevel
  message : Option String
deriving DecidableEq, Repr

/-- `LoguruWidget.sink`: read `record["time"]`, `record["level"].name` and
`record["message"]` (each lookup raising `KeyError` when the key is absent —
there is no try/except in the method) and `queue.put` the normalized dict. -/
def sink (w : Widget) (m : MessageRecord) : Except String Widget :=
  match m.time with
  | none => .error "KeyError: time"
  | some t =>
    match m.level with
    | none => .error "KeyError: level"
    | some lv =>
      match m.message with
      | none => .error "KeyError: message"
      | some msg => .ok { w with queue := w.queue ++ [⟨t, lv.name, msg⟩] }

/-- `set_color`: assign `log_colors[level] = color`, then `update_tag_colors`. -/
def set_color (w : Widget) (level : String) (color : Color) : Widget :=
  update_tag_colors { w with log_colors := dictSet w.log_colors level color }

/-- `get_logging_level`: `LEVEL_NO_TO_NAME.get(min_level, "INFO")`, applied
to the logger core's current minimum level number. -/
def get_logging_level (min_level : Nat) : String :=
  (LEVEL_NO_TO_NAME min_level).getD "INFO"

/-- `destroy`: set the destroyed flag (the Tk-side teardown has no further
observable effect on this state). -/
def destroy (w : Widget) : Widget :=
  { w with destroyed := true }

/-- A loguru sink registration as created by `logger.add(widget.sink, ...)`:
which keyword options the call passed explicitly (`none` means the call left
the library default). -/
structure Registration where
  levelArg : Option String
  backtraceArg : Option Bool
  diagnoseArg : Option Bool
deriving DecidableEq, Repr

/-- `logger.remove()` with no argument: drop every registration. -/
def logger_remove (_ : List Registration) : List Registration := []

/-- `set_logging_level`: `logger.remove()` then
`logger.add(self.sink, level=level)` — only the level option is passed. -/
def set_logging_level (regs : List Registration) (level : String) : List Registration :=
  logger_remove regs ++ [{ levelArg := some level, backtraceArg := none, diagnoseArg := none }]

/-- `setup_logger`: `logger.remove()` then
`logger.add(widget.sink, backtrace=True, diagnose=True)`. -/
def setup_logger (regs : List Registration) : List Registration :=
  logger_remove regs ++ [{ levelArg := none, backtraceArg := some true, diagnoseArg := some true }]

/-- The effective minimum level number of a registration: loguru's
`logger.add` defaults `level` to `"DEBUG"` when not passed. -/
def effectiveLevelNo (reg : Registration) : Nat :=
  levelNameToNo (reg.levelArg.getD "DEBUG")

/-- The widget's sink invoked by loguru on a well-formed message (all three
record fields present), so the `KeyError` branches of `sink` are
unreachable. -/
def callSink (w : Widget) (t name msg : String) : Widget :=
  match sink w ⟨some t, some ⟨name⟩, some msg⟩ with
  | .ok w' => w'
  | .error _ => w

/-- loguru's dispatch of one emitted record: deliver it to each registration
whose threshold is at most the record's level number. -/
def loguruEmit (regs : List Registration) (w : Widget) (t name msg : String) : Widget :=
  regs.foldl
    (fun acc reg =>
      if effectiveLevelNo reg ≤ levelNameToNo name then callSink acc t name msg else acc)
    w

/-- The three placement methods a caller can invoke. -/
inductive PlaceOp where
  | pack
  | grid
  | place
deriving DecidableEq, Repr

/-- The internal child-layout strategy each placement method selects when it
is the first one called (`pack` and `place` both configure pack layout). -/
def strategyOf : PlaceOp → String
  | .pack => "pack"
  | .grid => "grid"
  | .place => "pack"

/-- `pack` / `grid` / `place`: on the first placement call (layout manager
still unset) record the strategy and `_configure_layout`; afterwards the
stored strategy is left untouched (the `super()` geometry call itself does
not change this state). -/
def applyPlace (w : Widget) (op : PlaceOp) : Widget :=
  if w.layout = none then { w with layout := some (strategyOf op) } else w

/-- The displayed color of a segment: Tk resolves the segment's tag in the
current tag table at display time (untagged text uses the widget default,
`none` here). -/
def segDisplayedColor (w : Widget) (s : Segment) : Option Color :=
  if s.tag = "" then none else dictGet w.tagColors s.tag

/-- `color_mode` attribute assignment, as in the example code that switches
modes at runtime. -/
def setColorMode (w : Widget) (m : String) : Widget :=
  { w with color_mode := m }

/- Concrete records and widget states used by closed counterexamples and
witnesses. -/

/-- A DEBUG record (time already formatted, as `sink` normalizes it). -/
def recDEBUG : LogRecord := ⟨"2024-01-01 00:00:00", "DEBUG", "debug message"⟩

/-- An INFO record. -/
def recINFO : LogRecord := ⟨"2024-01-01 00:00:01", "INFO", "info message"⟩

/-- A CRITICAL record. -/
def recCRITICAL : LogRecord := ⟨"2024-01-01 00:00:02", "CRITICAL", "critical message"⟩

/-- A freshly constructed widget with the defaults of the example program. -/
def wDemo : Widget := mkWidget true "level" 1000

/-- The spec's eviction test: a widget with `max_lines = 2`, records at
DEBUG, INFO, CRITICAL enqueued, then one drain cycle. -/
def evictRun : Widget :=
  (check_queue { mkWidget true "level" 2 with queue := [recDEBUG, recINFO, recCRITICAL] }).1

/-- A widget with `max_lines = 2` already holding one rendered line. -/
def wTrim : Widget :=
  { mkWidget true "level" 2 with buffer := [renderSegs "level" recDEBUG] }

/-- A widget with ample `max_lines` and two queued records. -/
def wFifo : Widget :=
  { mkWidget true "level" 10 with queue := [recDEBUG, recINFO] }

/-- A loguru message whose record dict has none of the three keys `sink`
reads. -/
def emptyMsg : MessageRecord := ⟨none, none, none⟩

/-- The demo widget after rendering one INFO record. -/
def wRendered : Widget := update_widget wDemo recINFO

/-- The same widget after `set_color("INFO", "#ff0000")`. -/
def wRecolored : Widget := set_color wRendered "INFO" (Color.fg "#ff0000")

/-- The level-tagged segment of the INFO line rendered in `level` mode. -/
def infoSeg : Segment := ⟨pad8 "INFO", "INFO"⟩

/-! ## Helper lemmas -/

theorem update_widget_color_mode (w : Widget) (r : LogRecord) :
    (update_widget w r).color_mode = w.color_mode := rfl

theorem update_widget_max_lines (w : Widget) (r : LogRecord) :
    (update_widget w r).max_lines = w.max_lines := rfl

theorem update_widget_queue (w : Widget) (r : LogRecord) :
    (update_widget w r).queue = w.queue := rfl

theorem update_widget_destroyed (w : Widget) (r : LogRecord) :
    (update_widget w r).destroyed = w.destroyed := rfl

theorem update_widget_no_trim (w : Widget) (r : LogRecord)
    (h : w.buffer.length + 2 ≤ w.max_lines) :
    (update_widget w r).buffer = w.buffer ++ [renderSegs w.color_mode r] := by
  unfold update_widget
  simp only
  rw [if_neg]
  simp only [List.length_append, List.length_singleton]
  omega

theorem drainLoop_queue (rs : List LogRecord) : ∀ w : Widget, (drainLoop rs w).queue = w.queue := by
  induction rs with
  | nil => intro w; rfl
  | cons r rs ih => intro w; rw [drainLoop, ih, update_widget_queue]

theorem drainLoop_destroyed (rs : List LogRecord) :
    ∀ w : Widget, (drainLoop rs w).destroyed = w.destroyed := by
  induction rs with
  | nil => intro w; rfl
  | cons r rs ih => intro w; rw [drainLoop, ih, update_widget_destroyed]

theorem drainLoop_no_trim (rs : List LogRecord) :
    ∀ w : Widget, w.buffer.length + rs.length + 1 ≤ w.max_lines →
      (drainLoop rs w).buffer = w.buffer ++ rs.map (renderSegs w.color_mode) := by
  induction rs with
  | nil => intro w _; simp [drainLoop]
  | cons r rs ih =>
    intro w h
    have hs : w.buffer.length + 2 ≤ w.max_lines := by
      simp only [List.length_cons] at h; omega
    have hb : (update_widget w r).buffer = w.buffer ++ [renderSegs w.color_mode r] :=
      update_widget_no_trim w r hs
    have hrec := ih (update_widget w r) (by
      rw [hb, update_widget_max_lines]
      simp only [List.length_append, List.length_singleton, List.length_cons,
        List.length_nil] at h ⊢
      omega)
    rw [drainLoop, hrec, hb, update_widget_color_mode]
    simp

theorem dictGet_dictSet_self (d : List (String × Color)) (k : String) (v : Color) :
    dictGet (dictSet d k v) k = some v := by
  induction d with
  | nil => simp [dictSet, dictGet]
  | cons p t ih =>
    by_cases h : p.1 = k
    · simp [dictSet, h, dictGet]
    · simp [dictSet, h, dictGet, ih]

theorem dictGet_dictSet_ne (d : List (String × Color)) (k' k : String) (v : Color)
    (h : k' ≠ k) : dictGet (dictSet d k' v) k = dictGet d k := by
  induction d with
  | nil => simp [dictSet, dictGet, h]
  | cons p t ih =>
    by_cases hp : p.1 = k'
    · simp [dictSet, hp, dictGet, h]
    · simp only [dictSet, hp, if_false]
      by_cases hk : p.1 = k
      · simp [dictGet, hk]
      · simp [dictGet, hk, ih]

theorem mem_keys_dictSet (d : List (String × Color)) (k : String) (v : Color) (a : String) :
    a ∈ (dictSet d k v).map Prod.fst → a ∈ d.map Prod.fst ∨ a = k := by
  induction d with
  | nil => simp [dictSet]
  | cons p t ih =>
    by_cases h : p.1 = k
    · simp only [dictSet, h, if_true, List.map_cons, List.mem_cons]
      rintro (rfl | ha)
      · exact Or.inr rfl
      · exact Or.inl (Or.inr ha)
    · simp only [dictSet, h, if_false, List.map_cons, List.mem_cons]
      rintro (rfl | ha)
      · exact Or.inl (Or.inl rfl)
      · rcases ih ha with hm | hk
        · exact Or.inl (Or.inr hm)
        · exact Or.inr hk

theorem nodup_keys_dictSet (d : List (String × Color)) (k : String) (v : Color)
    (h : (d.map Prod.fst).Nodup) : ((dictSet d k v).map Prod.fst).Nodup := by
  induction d with
  | nil => simp [dictSet]
  | cons p t ih =>
    simp only [List.map_cons, List.nodup_cons] at h
    by_cases hp : p.1 = k
    · simp only [dictSet, hp, if_true, List.map_cons, List.nodup_cons]
      exact ⟨by rw [← hp]; exact h.1, h.2⟩
    · simp only [dictSet, hp, if_false, List.map_cons, List.nodup_cons]
      refine ⟨fun hmem => ?_, ih h.2⟩
      rcases mem_keys_dictSet t k v p.1 hmem with hm | hk
      · exact h.1 hm
      · exact hp hk

theorem dictGet_fold_not_mem (entries : List (String × Color)) :
    ∀ (tc : List (String × Color)) (k : String), k ∉ entries.map Prod.fst →
      dictGet (entries.foldl (fun acc p => dictSet acc p.1 p.2) tc) k = dictGet tc k := by
  induction entries with
  | nil => intro tc k _; rfl
  | cons p t ih =>
    intro tc k hk
    simp only [List.map_cons, List.mem_cons, not_or] at hk
    rw [List.foldl_cons, ih (dictSet tc p.1 p.2) k hk.2,
      dictGet_dictSet_ne tc p.1 k p.2 (fun he => hk.1 he.symm)]

theorem dictGet_fold_of_get (entries : List (String × Color)) :
    ∀ (tc : List (String × Color)) (k : String) (v : Color),
      (entries.map Prod.fst).Nodup → dictGet entries k = some v →
      dictGet (entries.foldl (fun acc p => dictSet acc p.1 p.2) tc) k = some v := by
  induction entries with
  | nil => intro tc k v _ hget; simp [dictGet] at hget
  | cons p t ih =>
    intro tc k v hnd hget
    simp only [List.map_cons, List.nodup_cons] at hnd
    rw [List.foldl_cons]
    by_cases hp : p.1 = k
    · have hv : v = p.2 := by
        simp only [dictGet, hp, if_true] at hget
        exact (Option.some.injEq _ _ ▸ hget).symm
      rw [dictGet_fold_not_mem t (dictSet tc p.1 p.2) k (by rw [← hp]; exact hnd.1),
        hp, dictGet_dictSet_self, hv]
    · have hget' : dictGet t k = some v := by
        simpa [dictGet, hp] using hget
      exact ih (dictSet tc p.1 p.2) k v hnd.2 hget'

theorem applyPlace_some (w : Widget) (op : PlaceOp) (s : String) (h : w.layout = some s) :
    (applyPlace w op).layout = some s := by
  simp [applyPlace, h]

theorem foldl_applyPlace_some (ops : List PlaceOp) :
    ∀ (w : Widget) (s : String), w.layout = some s →
      (ops.foldl applyPlace w).layout = some s := by
  induction ops with
  | nil => intro w s h; exact h
  | cons op ops ih =>
    intro w s h
    rw [List.foldl_cons]
    exact ih (applyPlace w op) s (applyPlace_some w op s h)

/-! ## Claim theorems -/

/-- C1, counterexample: the spec's eviction test fails on the code.  With
`max_lines = 2` and records at DEBUG, INFO, CRITICAL drained, the buffer
holds only the CRITICAL line (length 1), not the INFO and CRITICAL lines
(length 2 = `max_lines`): the Tk end-index counts the widget's empty final
display line, so trimming already fires when the rendered line count reaches
`max_lines`. -/
theorem evict_run_drops_info_line :
    evictRun.buffer = [renderSegs "level" recCRITICAL] ∧
    evictRun.buffer ≠ [renderSegs "level" recINFO, renderSegs "level" recCRITICAL] ∧
    evictRun.buffer.length ≠ 2 := by decide

/-- C1, amended: whenever the Tk line index after an insertion exceeds
`max_lines` — that is, the rendered line count has reached `max_lines` —
`update_widget` removes exactly one line, the oldest, leaving the buffer at
its pre-insertion length (`max_lines - 1` in steady state), not at
`max_lines`. -/
theorem trim_removes_oldest_keeps_count (w : Widget) (r : LogRecord)
    (h : w.max_lines < w.buffer.length + 2) :
    (update_widget w r).buffer = (w.buffer ++ [renderSegs w.color_mode r]).drop 1 ∧
    (update_widget w r).buffer.length = w.buffer.length := by
  have hcond : (w.buffer ++ [renderSegs w.color_mode r]).length + 1 > w.max_lines := by
    simp only [List.length_append, List.length_singleton]
    omega
  have hb : (update_widget w r).buffer =
      (w.buffer ++ [renderSegs w.color_mode r]).drop 1 := by
    unfold update_widget
    simp only
    rw [if_pos hcond]
  refine ⟨hb, ?_⟩
  rw [hb]
  simp only [List.length_drop, List.length_append, List.length_singleton]
  omega

/-- Witness for the amended C1 at a concrete widget one line below the cap. -/
theorem trim_removes_oldest_keeps_count_witness :
    wTrim.max_lines < wTrim.buffer.length + 2 ∧
    ((update_widget wTrim recINFO).buffer =
       (wTrim.buffer ++ [renderSegs wTrim.color_mode recINFO]).drop 1 ∧
     (update_widget wTrim recINFO).buffer.length = wTrim.buffer.length) :=
  ⟨by decide, trim_removes_oldest_keeps_count wTrim recINFO (by decide)⟩

/-- C2: when the widget is live, its buffer empty and `max_lines` large
enough that no trimming occurs, one `check_queue` cycle renders exactly the
enqueued records, formatted, in enqueue order, and empties the queue — no
loss, duplication or reordering. -/
theorem drain_renders_fifo (w : Widget) (h1 : w.destroyed = false) (h2 : w.buffer = [])
    (h3 : w.queue.length + 1 ≤ w.max_lines) :
    (check_queue w).1.buffer = w.queue.map (renderSegs w.color_mode) ∧
    (check_queue w).1.queue = [] := by
  have hw : check_queue w = (drainLoop w.queue { w with queue := [] },
      !(drainLoop w.queue { w with queue := [] }).destroyed) := by
    simp [check_queue, h1]
  rw [hw]
  constructor
  · have := drainLoop_no_trim w.queue { w with queue := [] } (by simpa [h2] using h3)
    simpa [h2] using this
  · rw [drainLoop_queue]

/-- Witness for C2: two records drained into an empty buffer under a cap of
ten lines. -/
theorem drain_renders_fifo_witness :
    (check_queue wFifo).1.buffer = wFifo.queue.map (renderSegs wFifo.color_mode) ∧
    (check_queue wFifo).1.queue = [] :=
  drain_renders_fifo wFifo rfl rfl (by decide)

/-- C3, counterexample: `sink` is not exception-safe.  On a message whose
record dict lacks the `time` key, the `record` lookup raises (`Except.error`
models the uncaught Python `KeyError`); the record is neither enqueued nor
silently dropped without error. -/
theorem sink_errors_on_empty_record :
    sink wDemo emptyMsg = Except.error "KeyError: time" ∧
    (sink wDemo emptyMsg).isOk = false := ⟨rfl, rfl⟩

/-- C3, amended: for well-formed messages (all of `time`, `level`, `message`
present in the record dict) `sink` enqueues the normalized record and raises
nothing, but when any of the three keys is missing a `KeyError` propagates
out of `sink` to its caller — the method has no try/except. -/
theorem sink_ok_iff_wellformed (w w' : Widget) (t : String) (lv : LoguruLevel)
    (msg : String) (m : MessageRecord)
    (hm : m.time = none ∨ m.level = none ∨ m.message = none) :
    sink w ⟨some t, some lv, some msg⟩ =
      Except.ok { w with queue := w.queue ++ [⟨t, lv.name, msg⟩] } ∧
    (sink w' m).isOk = false := by
  refine ⟨rfl, ?_⟩
  obtain ⟨mt, ml, mm⟩ := m
  cases mt <;> cases ml <;> cases mm <;> simp_all [sink, Except.isOk, Except.toBool]

/-- Witness for the amended C3: a well-formed message is enqueued, the empty
record raises. -/
theorem sink_ok_iff_wellformed_witness :
    (emptyMsg.time = none ∨ emptyMsg.level = none ∨ emptyMsg.message = none) ∧
    (sink wDemo ⟨some "t", some ⟨"INFO"⟩, some "m"⟩ =
       Except.ok { wDemo with queue := wDemo.queue ++ [⟨"t", "INFO", "m"⟩] } ∧
     (sink wFifo emptyMsg).isOk = false) :=
  ⟨Or.inl rfl, sink_ok_iff_wellformed wDemo wFifo "t" ⟨"INFO"⟩ "m" emptyMsg (Or.inl rfl)⟩

/-- C4: after `destroy` sets the destroyed flag, a producer-side enqueue via
`sink` still succeeds without raising, `check_queue` on the destroyed widget
changes nothing and does not reschedule, and in general `check_queue` only
reschedules when the destroyed flag is still unset when the reschedule is
issued (the flag is tested on entry and again before `after`). -/
theorem destroyed_enqueue_safe_no_reschedule (w : Widget) (t : String) (lv : LoguruLevel)
    (msg : String) :
    (sink (destroy w) ⟨some t, some lv, some msg⟩).isOk = true ∧
    check_queue (destroy w) = (destroy w, false) ∧
    (∀ v : Widget, (check_queue v).2 = !(check_queue v).1.destroyed) := by
  refine ⟨rfl, rfl, ?_⟩
  intro v
  by_cases h : v.destroyed
  · simp [check_queue, h]
  · simp [check_queue, h]

/-- C5: after `set_logging_level L`, an emitted record whose level is
strictly below `L` never reaches the widget's queue, while one at or above
`L` is enqueued. -/
theorem set_level_filters_queue (L name : String) (_hL : L ∈ LEVELS)
    (_hname : name ∈ LEVELS) (regs : List Registration) (w : Widget) (t msg : String) :
    (levelNameToNo name < levelNameToNo L →
      loguruEmit (set_logging_level regs L) w t name msg = w) ∧
    (levelNameToNo L ≤ levelNameToNo name →
      (loguruEmit (set_logging_level regs L) w t name msg).queue =
        w.queue ++ [⟨t, name, msg⟩]) := by
  have he : effectiveLevelNo ⟨some L, none, none⟩ = levelNameToNo L := rfl
  constructor
  · intro h
    simp only [loguruEmit, set_logging_level, logger_remove, List.nil_append,
      List.foldl_cons, List.foldl_nil]
    rw [if_neg]
    rw [he]
    omega
  · intro h
    simp only [loguruEmit, set_logging_level, logger_remove, List.nil_append,
      List.foldl_cons, List.foldl_nil]
    rw [if_pos (by rw [he]; exact h)]
    rfl

/-- Witness for C5: with the threshold at WARNING, an INFO record is
filtered out before the queue. -/
theorem set_level_filters_queue_witness :
    ("WARNING" ∈ LEVELS ∧ "INFO" ∈ LEVELS ∧
     levelNameToNo "INFO" < levelNameToNo "WARNING") ∧
    loguruEmit (set_logging_level [] "WARNING") wDemo "t" "INFO" "m" = wDemo :=
  ⟨⟨by decide, by decide, by decide⟩,
    (set_level_filters_queue "WARNING" "INFO" (by decide) (by decide) [] wDemo "t" "m").1
      (by decide)⟩

/-- C6: `set_logging_level` fully replaces the sink registry: whatever was
registered before, afterwards exactly one registration remains, passing only
the new level; in particular the `backtrace=True, diagnose=True` options
`setup_logger` had passed are not carried over. -/
theorem set_level_replaces_registrations (regs regs0 : List Registration) (L : String) :
    set_logging_level regs L =
      [{ levelArg := some L, backtraceArg := none, diagnoseArg := none }] ∧
    setup_logger regs0 =
      [{ levelArg := none, backtraceArg := some true, diagnoseArg := some true }] ∧
    set_logging_level (setup_logger regs0) L =
      [{ levelArg := some L, backtraceArg := none, diagnoseArg := none }] :=
  ⟨rfl, rfl, rfl⟩

/-- C7, counterexample: `set_color` is retroactive.  After rendering one
INFO line and then calling `set_color("INFO", "#ff0000")`, the rendered line
is still in the buffer unchanged, but the color it displays — resolved
through its `INFO` tag in the tag table — switches from the default
`#3498db` to `#ff0000`. -/
theorem set_color_recolors_rendered_info :
    wRendered.buffer =
      [[⟨recINFO.time ++ " | ", ""⟩, infoSeg, ⟨" | " ++ recINFO.message ++ "\n", ""⟩]] ∧
    wRecolored.buffer = wRendered.buffer ∧
    segDisplayedColor wRendered infoSeg = some (Color.fg "#3498db") ∧
    segDisplayedColor wRecolored infoSeg = some (Color.fg "#ff0000") ∧
    segDisplayedColor wRecolored infoSeg ≠ segDisplayedColor wRendered infoSeg := by
  decide

/-- C7, amended: `set_color(level, c)` leaves the buffer's text and tags
unchanged but reconfigures the level's tag to `c`, so every segment tagged
with that level — already-rendered ones included, and future ones alike —
displays the new color. -/
theorem set_color_recolors_all_tagged (w : Widget) (level : String) (color : Color)
    (s : Segment) (hnd : (w.log_colors.map Prod.fst).Nodup) (hlv : level ≠ "")
    (hs : s.tag = level) :
    (set_color w level color).buffer = w.buffer ∧
    dictGet (set_color w level color).tagColors level = some color ∧
    segDisplayedColor (set_color w level color) s = some color := by
  have hget : dictGet (set_color w level color).tagColors level = some color := by
    simp only [set_color, update_tag_colors]
    exact dictGet_fold_of_get _ _ _ _ (nodup_keys_dictSet _ _ _ hnd)
      (dictGet_dictSet_self _ _ _)
  refine ⟨rfl, hget, ?_⟩
  rw [segDisplayedColor, hs, if_neg hlv]
  exact hget

/-- Witness for the amended C7 at the default widget and the rendered INFO
segment. -/
theorem set_color_recolors_all_tagged_witness :
    ((wRendered.log_colors.map Prod.fst).Nodup ∧ "INFO" ≠ "" ∧ infoSeg.tag = "INFO") ∧
    ((set_color wRendered "INFO" (Color.fg "#ff0000")).buffer = wRendered.buffer ∧
     dictGet (set_color wRendered "INFO" (Color.fg "#ff0000")).tagColors "INFO" =
       some (Color.fg "#ff0000") ∧
     segDisplayedColor (set_color wRendered "INFO" (Color.fg "#ff0000")) infoSeg =
       some (Color.fg "#ff0000")) :=
  ⟨⟨by decide, by decide, rfl⟩,
    set_color_recolors_all_tagged wRendered "INFO" (Color.fg "#ff0000") infoSeg
      (by decide) (by decide) rfl⟩

/-- C8: rendering is stateless in the color mode.  Setting `color_mode`
through `full`, `message`, `level` and back to the original value and then
rendering a record is identical to rendering it before the mode changes: the
formatted line depends only on the record and the current mode. -/
theorem color_mode_roundtrip_stateless (w : Widget) (r : LogRecord) :
    update_widget
      (setColorMode (setColorMode (setColorMode (setColorMode w "full") "message") "level")
        w.color_mode) r = update_widget w r := rfl

/-- C9: the child-layout strategy is write-once: it is `none` at
construction; the first placement call locks it to `pack` (for `pack` and
`place`) or `grid` (for `grid`), and no sequence of later placement calls
changes it. -/
theorem first_placement_locks_layout (w : Widget) (op : PlaceOp) (ops : List PlaceOp)
    (sb : Bool) (cm : String) (ml : Nat) (h : w.layout = none) :
    (mkWidget sb cm ml).layout = none ∧
    (applyPlace w op).layout = some (strategyOf op) ∧
    ((op :: ops).foldl applyPlace w).layout = some (strategyOf op) ∧
    strategyOf PlaceOp.pack = "pack" ∧ strategyOf PlaceOp.place = "pack" ∧
    strategyOf PlaceOp.grid = "grid" := by
  have h1 : (applyPlace w op).layout = some (strategyOf op) := by simp [applyPlace, h]
  refine ⟨rfl, h1, ?_, rfl, rfl, rfl⟩
  rw [List.foldl_cons]
  exact foldl_applyPlace_some ops (applyPlace w op) (strategyOf op) h1

/-- Witness for C9: a fresh widget, `grid` first, then `pack` and `place`;
the strategy stays `grid`. -/
theorem first_placement_locks_layout_witness :
    wDemo.layout = none ∧
    ((mkWidget true "level" 1000).layout = none ∧
     (applyPlace wDemo PlaceOp.grid).layout = some (strategyOf PlaceOp.grid) ∧
     ((PlaceOp.grid :: [PlaceOp.pack, PlaceOp.place]).foldl applyPlace wDemo).layout =
       some (strategyOf PlaceOp.grid) ∧
     strategyOf PlaceOp.pack = "pack" ∧ strategyOf PlaceOp.place = "pack" ∧
     strategyOf PlaceOp.grid = "grid") :=
  ⟨rfl, first_placement_locks_layout wDemo PlaceOp.grid [PlaceOp.pack, PlaceOp.place]
    true "level" 1000 rfl⟩

/-- C10: `get_logging_level` maps each of the seven known level numbers to
its name and every other level number to the string INFO, so the reported
level can disagree with the logger's actual threshold. -/
theorem get_logging_level_table_or_info (n : Nat)
    (hn : n ∉ ([5, 10, 20, 25, 30, 40, 50] : List Nat)) :
    get_logging_level 5 = "TRACE" ∧ get_logging_level 10 = "DEBUG" ∧
    get_logging_level 20 = "INFO" ∧ get_logging_level 25 = "SUCCESS" ∧
    get_logging_level 30 = "WARNING" ∧ get_logging_level 40 = "ERROR" ∧
    get_logging_level 50 = "CRITICAL" ∧ get_logging_level n = "INFO" := by
  refine ⟨rfl, rfl, rfl, rfl, rfl, rfl, rfl, ?_⟩
  simp only [List.mem_cons, List.not_mem_nil, or_false] at hn
  push_neg at hn
  obtain ⟨h5, h10, h20, h25, h30, h40, h50⟩ := hn
  simp [get_logging_level, LEVEL_NO_TO_NAME, h5, h10, h20, h25, h30, h40, h50]

/-- Witness for C10 at the unknown level number 7 (between TRACE and DEBUG),
reported as INFO. -/
theorem get_logging_level_table_or_info_witness :
    (7 : Nat) ∉ ([5, 10, 20, 25, 30, 40, 50] : List Nat) ∧
    (get_logging_level 5 = "TRACE" ∧ get_logging_level 10 = "DEBUG" ∧
     get_logging_level 20 = "INFO" ∧ get_logging_level 25 = "SUCCESS" ∧
     get_logging_level 30 = "WARNING" ∧ get_logging_level 40 = "ERROR" ∧
     get_logging_level 50 = "CRITICAL" ∧ get_logging_level 7 = "INFO") :=
  ⟨by decide, get_logging_level_table_or_info 7 (by decide)⟩

end TkLoguru
